import Mathlib

/-!
Verification of the 3D farm visualizer's scene-generation core.

The definitions below are a shallow embedding of the TypeScript source:

* `buildLand` embeds the land rebuild effect of `FarmScene.tsx`
  (guard `!acres`, then `landSize = Math.sqrt(acres) * 208.7 * scale`
  with `scale = 0.055`).
* `toggleCameraAngle` embeds the camera-angle cycling switch.
* `cropLoop` / `buildCrops` / `rebuildCrops` embed the crop rebuild effect:
  removal of the previously tracked objects whose name starts with
  "crops-", then the cursor walk over the allocation list creating, for
  each allocation with positive percentage, a plot mesh and a crop group.
* `growScale` / `easeOutBack` embed the `growCrops` animation step and
  `rotationZ` embeds the idle sway of `animateSway`.
* `renderTick` embeds the per-frame `animate` callback (cloud drift gated
  on `!isAnimatingRef.current`, water ripple `time += 0.01`).
* `adjustStage` / `randomizeStage` / `finalizePercents` /
  `getAIRecommendation` embed the recommendation function of `Index.tsx`.

JavaScript numbers are modelled as exact rationals (`ℚ`) where the source
only uses field operations, and as reals (`ℝ`) where `Math.sqrt` or
`Math.sin` are involved.  `Math.random()` draws are threaded in as explicit
parameters so theorems quantify over every randomization outcome.
-/

namespace FarmViz

/-- The four crop types of `types/farm.ts` (`CropType`). -/
inductive CropType
  | wheat
  | corn
  | soybean
  | cotton
deriving DecidableEq

/-- The string name used by the source for each crop type. -/
def cropName : CropType → String
  | .wheat => "wheat"
  | .corn => "corn"
  | .soybean => "soybean"
  | .cotton => "cotton"

/-- `CropAllocation` of `types/farm.ts`: `{ crop, percentage, acres }`. -/
structure CropAllocation where
  crop : CropType
  percentage : ℚ
  acres : ℚ

/-- The land plot produced by the land rebuild effect; `sizeUnits` is the
`landSize` the effect computes and uses as the ground-mesh width. -/
structure LandPlot where
  sizeUnits : ℝ
deriving Inhabited

/-- `const scale = 0.055` in the land rebuild effect of `FarmScene.tsx`. -/
noncomputable def scaleConstant : ℝ := 0.055

/-- The land rebuild effect of `FarmScene.tsx`.  The guard is
`if (!sceneRef.current || !acres) return;`: a JS number is falsy exactly
when it is `0` (or `NaN`); in the real-number embedding the guard rejects
exactly `acres = 0`.  When the guard passes the effect computes
`landSize = Math.sqrt(acres) * 208.7 * scale` and builds and adds the
ground mesh of that width. -/
noncomputable def buildLand (acres : ℝ) : Option LandPlot :=
  if acres = 0 then none
  else some ⟨Real.sqrt acres * 208.7 * scaleConstant⟩

/-- The three camera view modes of `FarmScene.tsx`. -/
inductive CameraAngle
  | top
  | side
  | angled
deriving DecidableEq

/-- `toggleCameraAngle` of `FarmScene.tsx`: `angled → top → side → angled`
(the `default` branch of the source switch is unreachable for the union
type `'top' | 'side' | 'angled'`). -/
def toggleCameraAngle : CameraAngle → CameraAngle
  | .angled => .top
  | .top => .side
  | .side => .angled

/-- C1: for every `acres > 0` the land rebuild effect creates the plot and
its computed size in world units is exactly
`sqrt(acres) * 208.7 * 0.055` (the implementation's scale constant). -/
theorem land_sizeUnits_formula (acres : ℝ) (h : 0 < acres) :
    buildLand acres = some ⟨Real.sqrt acres * 208.7 * 0.055⟩ := by
  unfold buildLand scaleConstant
  rw [if_neg (ne_of_gt h)]

/-- Witness for C1 at `acres = 4`. -/
theorem land_sizeUnits_formula_witness :
    (0 : ℝ) < 4 ∧ buildLand 4 = some ⟨Real.sqrt 4 * 208.7 * 0.055⟩ :=
  ⟨by norm_num, land_sizeUnits_formula 4 (by norm_num)⟩

/-- C3 counterexample: at `acres = -1` the guard `!acres` passes (−1 is a
truthy JS number), so the build is not a no-op: a ground mesh is created
and added, and it is degenerate (its size evaluates to `NaN` in JS; in the
real embedding `Real.sqrt (-1) = 0`, a zero-sized mesh). -/
theorem land_guard_negative_counterexample :
    buildLand (-1) = some ⟨0⟩ := by
  unfold buildLand scaleConstant
  rw [if_neg (by norm_num)]
  have h : Real.sqrt (-1) = 0 := Real.sqrt_eq_zero_of_nonpos (by norm_num)
  rw [h]
  norm_num

/-- C3 amended: the land rebuild is a no-op exactly when `acres` is a falsy
JS number (`0`, or `NaN`, which the real embedding cannot represent); any
other value — including negative acreage — passes the guard and a
(possibly degenerate) mesh is constructed and added. -/
theorem land_guard_amended :
    (∀ acres : ℝ, buildLand acres = none ↔ acres = 0)
    ∧ (buildLand (-1)).isSome = true := by
  constructor
  · intro acres
    unfold buildLand
    split_ifs with h
    · simp [h]
    · simp [h]
  · unfold buildLand scaleConstant
    rw [if_neg (by norm_num)]
    rfl

/-- A scene-graph object created by the crop rebuild effect (or the land
effect).  `gen` is a build-generation tag modelling JS object identity —
objects created by different rebuilds are distinct even when their names
coincide.  `width` is the geometry width parameter (`sectionWidth` for
plots and crop groups, `landSize` for the land mesh) and `posX` the
object's `position.x`. -/
structure SceneObj where
  name : String
  gen : ℕ
  width : ℚ
  posX : ℚ

/-- Character-list version of the string test `s.startsWith(p)`. -/
def charsStartWith : List Char → List Char → Bool
  | _, [] => true
  | [], _ :: _ => false
  | c :: cs, d :: ds => c == d && charsStartWith cs ds

/-- `s.startsWith(p)` of JS strings (recursion on the character lists). -/
def strStartsWith (s p : String) : Bool := charsStartWith s.data p.data

/-- Name of the plot mesh for a crop: `plot-${allocation.crop}`. -/
def plotName (c : CropType) : String := "plot-" ++ cropName c

/-- Name of the crop group for a crop: `crops-${allocation.crop}`. -/
def cropsName (c : CropType) : String := "crops-" ++ cropName c

/-- JS reference identity of scene objects: within this model an object is
uniquely identified by its name together with its build generation, so
`scene.remove(obj)` removes exactly the objects with `obj`'s name/gen. -/
def objIdEq (a b : SceneObj) : Bool := a.name == b.name && a.gen == b.gen

/-- The `cropAllocations.forEach` loop of the crop rebuild effect of
`FarmScene.tsx`: entries with `percentage <= 0` are skipped; otherwise
`sectionWidth = landSize * (percentage / 100)` and both the plot mesh and
the crop group are placed at `currentX + sectionWidth / 2`, after which
the cursor advances by `sectionWidth`. -/
def cropLoop (gen : ℕ) (landSize : ℚ) :
    List CropAllocation → ℚ → List SceneObj
  | [], _ => []
  | a :: rest, currentX =>
    if a.percentage ≤ 0 then cropLoop gen landSize rest currentX
    else
      let w := landSize * (a.percentage / 100)
      { name := plotName a.crop, gen := gen, width := w, posX := currentX + w / 2 } ::
      { name := cropsName a.crop, gen := gen, width := w, posX := currentX + w / 2 } ::
      cropLoop gen landSize rest (currentX + w)

/-- The objects one run of the crop rebuild effect creates: the cursor
starts at `let currentX = -landSize / 2`. -/
def buildCrops (gen : ℕ) (landSize : ℚ) (allocs : List CropAllocation) :
    List SceneObj :=
  cropLoop gen landSize allocs (-(landSize / 2))

/-- The mutable state the crop rebuild effect works on: the scene's
children and the `cropObjectsRef` array. -/
structure CropSceneState where
  scene : List SceneObj
  cropObjects : List SceneObj

/-- The crop rebuild effect of `FarmScene.tsx`.  Guards
(`cropAllocations.length === 0`, missing land object) return early; note
the source removes from the scene only the tracked objects whose name
starts with `"crops-"` and then clears `cropObjectsRef.current` before
looking the land mesh up.  `landSize` is read from the land geometry's
width parameter; here it is passed in as `landSize`. -/
def rebuildCrops (gen : ℕ) (landSize : ℚ) (allocs : List CropAllocation)
    (st : CropSceneState) : CropSceneState :=
  if allocs.isEmpty then st
  else
    let existing := st.cropObjects.filter (fun o => strStartsWith o.name "crops-")
    let scene1 := st.scene.filter (fun o => !(existing.any (objIdEq o)))
    if scene1.any (fun o => o.name == "land") then
      { scene := scene1 ++ buildCrops gen landSize allocs,
        cropObjects := buildCrops gen landSize allocs }
    else
      { scene := scene1, cropObjects := [] }

/-- The tiling predicate: starting from cursor position `c`, each object
sits at `c + width / 2` and the cursor advances by its width. -/
def tilesFrom : ℚ → List SceneObj → Prop
  | _, [] => True
  | c, o :: rest => o.posX = c + o.width / 2 ∧ tilesFrom (c + o.width) rest

theorem plotName_is_plot (c : CropType) :
    strStartsWith (plotName c) "plot-" = true := by
  cases c <;> decide

theorem cropsName_not_plot (c : CropType) :
    strStartsWith (cropsName c) "plot-" = false := by
  cases c <;> decide

/-- Helper: the plots created by `cropLoop` are, in input order, exactly
one per allocation with positive percentage, of width
`landSize * percentage / 100`. -/
theorem cropLoop_plots_map (gen : ℕ) (L : ℚ) (allocs : List CropAllocation) :
    ∀ c : ℚ,
      ((cropLoop gen L allocs c).filter
          (fun o => strStartsWith o.name "plot-")).map (fun o => (o.name, o.width))
        = (allocs.filter (fun a => decide (0 < a.percentage))).map
            (fun a => (plotName a.crop, L * (a.percentage / 100))) := by
  induction allocs with
  | nil => intro c; rfl
  | cons a rest ih =>
    intro c
    by_cases h : a.percentage ≤ 0
    · have h2 : decide (0 < a.percentage) = false := by
        simp [not_lt.mpr h]
      simp only [cropLoop, if_pos h, List.filter_cons, h2]
      exact ih c
    · have h2 : decide (0 < a.percentage) = true := by
        simp [lt_of_not_ge h]
      simp only [cropLoop, if_neg h]
      simp [List.filter_cons, h2, plotName_is_plot, cropsName_not_plot,
        ih (c + L * (a.percentage / 100))]

/-- Helper: the plots created by `cropLoop` tile contiguously from the
starting cursor. -/
theorem cropLoop_tiles (gen : ℕ) (L : ℚ) (allocs : List CropAllocation) :
    ∀ c : ℚ,
      tilesFrom c ((cropLoop gen L allocs c).filter
        (fun o => strStartsWith o.name "plot-")) := by
  induction allocs with
  | nil => intro c; trivial
  | cons a rest ih =>
    intro c
    by_cases h : a.percentage ≤ 0
    · simp only [cropLoop, if_pos h]
      exact ih c
    · simp only [cropLoop, if_neg h]
      simp only [List.filter_cons, plotName_is_plot, cropsName_not_plot,
        if_true, if_false, Bool.false_eq_true, ite_false, ite_true]
      exact ⟨rfl, ih (c + L * (a.percentage / 100))⟩

/-- Helper: the sum of the created plot widths is
`landSize * (sum of the positive percentages) / 100`. -/
theorem cropLoop_width_sum (gen : ℕ) (L : ℚ) (allocs : List CropAllocation) :
    ∀ c : ℚ,
      (((cropLoop gen L allocs c).filter
          (fun o => strStartsWith o.name "plot-")).map SceneObj.width).sum
        = L * ((allocs.filter (fun a => decide (0 < a.percentage))).map
            CropAllocation.percentage).sum / 100 := by
  induction allocs with
  | nil => intro c; simp [cropLoop]
  | cons a rest ih =>
    intro c
    by_cases h : a.percentage ≤ 0
    · have h2 : decide (0 < a.percentage) = false := by
        simp [not_lt.mpr h]
      simp only [cropLoop, if_pos h, List.filter_cons, h2]
      exact ih c
    · have h2 : decide (0 < a.percentage) = true := by
        simp [lt_of_not_ge h]
      simp only [cropLoop, if_neg h]
      simp [List.filter_cons, h2, plotName_is_plot, cropsName_not_plot,
        ih (c + L * (a.percentage / 100))]
      ring

/-- C2: for every land size `L` and allocation list, the crop rebuild walks
allocations in input order, creating for each entry with positive
percentage one section of width `L * percentage / 100`; the sections tile
at a running cursor starting at `-L / 2` (each section centred at cursor
plus half its width, the cursor advancing by the section width); and the
created widths sum to `L * (Σ positive percentages) / 100` with no
renormalization. -/
theorem cropLayout_tiling_spec (gen : ℕ) (L : ℚ) (allocs : List CropAllocation) :
    ((buildCrops gen L allocs).filter
        (fun o => strStartsWith o.name "plot-")).map (fun o => (o.name, o.width))
      = (allocs.filter (fun a => decide (0 < a.percentage))).map
          (fun a => (plotName a.crop, L * (a.percentage / 100)))
    ∧ tilesFrom (-(L / 2)) ((buildCrops gen L allocs).filter
        (fun o => strStartsWith o.name "plot-"))
    ∧ (((buildCrops gen L allocs).filter
        (fun o => strStartsWith o.name "plot-")).map SceneObj.width).sum
      = L * ((allocs.filter (fun a => decide (0 < a.percentage))).map
          CropAllocation.percentage).sum / 100 :=
  ⟨cropLoop_plots_map gen L allocs (-(L / 2)),
   cropLoop_tiles gen L allocs (-(L / 2)),
   cropLoop_width_sum gen L allocs (-(L / 2))⟩

/-- C4 (code bug): after two consecutive crop rebuilds with allocation
`[wheat 100%]` on land of width 10, the first build's plot mesh
(`plot-wheat`, generation 1) is still in the scene: the rebuild only
removes tracked objects whose name starts with `"crops-"`, so plot meshes
leak, contradicting the full-disposal requirement. -/
theorem crop_rebuild_plot_leak :
    ((rebuildCrops 2 10 [⟨CropType.wheat, 100, 10⟩]
        (rebuildCrops 1 10 [⟨CropType.wheat, 100, 10⟩]
          ⟨[⟨"land", 0, 10, 0⟩], []⟩)).scene.map (fun o => (o.name, o.gen)))
      = [("land", 0), ("plot-wheat", 1), ("plot-wheat", 2), ("crops-wheat", 2)] := by
  decide

/-- C7: entries with non-positive percentage produce nothing: the loop's
output on any allocation list equals its output on the positive-percentage
sublist; and in Scenario C (`[wheat 0%, corn 100%]`, land width 10) the
created objects are exactly corn's plot and crop group — no wheat object
exists, hence zero wheat plant instances. -/
theorem zero_percentage_no_objects :
    (∀ (gen : ℕ) (L : ℚ) (allocs : List CropAllocation) (c : ℚ),
        cropLoop gen L allocs c
          = cropLoop gen L
              (allocs.filter (fun a => decide (0 < a.percentage))) c)
    ∧ (buildCrops 1 10 [⟨CropType.wheat, 0, 0⟩, ⟨CropType.corn, 100, 10⟩]).map
        SceneObj.name = ["plot-corn", "crops-corn"]
    ∧ ((buildCrops 1 10 [⟨CropType.wheat, 0, 0⟩,
        ⟨CropType.corn, 100, 10⟩]).filter
          (fun o => o.name == cropsName CropType.wheat)).map SceneObj.name
        = [] := by
  refine ⟨?_, by decide, by decide⟩
  intro gen L allocs
  induction allocs with
  | nil => intro c; rfl
  | cons a rest ih =>
    intro c
    by_cases h : a.percentage ≤ 0
    · have h2 : decide (0 < a.percentage) = false := by
        simp [not_lt.mpr h]
      simp only [cropLoop, if_pos h, List.filter_cons, h2]
      exact ih c
    · have h2 : decide (0 < a.percentage) = true := by
        simp [lt_of_not_ge h]
      simp only [List.filter_cons, h2, cropLoop, if_neg h]
      rw [ih (c + L * (a.percentage / 100))]

/-- `growDuration = 2500` (milliseconds) in `growCrops`. -/
def growDuration : ℚ := 2500

/-- `targetScale = 1` in `growCrops`. -/
def targetScale : ℚ := 1

/-- The `easeOutBack` easing of `growCrops`:
`1 + c3 * (x - 1)^3 + c1 * (x - 1)^2` with `c1 = 1.70158`, `c3 = c1 + 1`. -/
def easeOutBack (x : ℚ) : ℚ :=
  1 + (1.70158 + 1) * (x - 1) ^ 3 + 1.70158 * (x - 1) ^ 2

/-- `progress = Math.min(elapsed / growDuration, 1)` in `growCrops`
(`elapsed = Date.now() - startTime` is nonnegative). -/
def growProgress (elapsed : ℚ) : ℚ := min (elapsed / growDuration) 1

/-- One growth-animation update of `growCrops` applied to a plant whose
creation-time scale was `plant.scale.set(baseScale, 0, baseScale)`:
`plant.scale.set(baseScale, baseScale * easedProgress * targetScale,
baseScale)` where `easedProgress = easeOutBack(progress)`.  The result is
the `(x, y, z)` scale triple. -/
def growScale (baseScale elapsed : ℚ) : ℚ × ℚ × ℚ :=
  (baseScale, baseScale * easeOutBack (growProgress elapsed) * targetScale, baseScale)

/-- C5: growth progress is `clamp(elapsed / growDuration, 0, 1)` for the
nonnegative elapsed times the timer produces; the X and Z scales stay at
the creation-time `baseScale` throughout; at `elapsed = 0` the Y-scale is
`0`; and at `elapsed ≥ growDuration` the Y-scale equals `baseScale`
exactly (within the ease-out overshoot tolerance, here zero since
`easeOutBack 1 = 1`). -/
theorem grow_scale_spec (baseScale elapsed : ℚ) (he : 0 ≤ elapsed) :
    growProgress elapsed = max 0 (min (elapsed / growDuration) 1)
    ∧ (growScale baseScale elapsed).1 = baseScale
    ∧ (growScale baseScale elapsed).2.2 = baseScale
    ∧ (growScale baseScale 0).2.1 = 0
    ∧ (growDuration ≤ elapsed → (growScale baseScale elapsed).2.1 = baseScale) := by
  refine ⟨?_, rfl, rfl, ?_, ?_⟩
  · have h0 : (0 : ℚ) ≤ min (elapsed / growDuration) 1 := by
      have : (0 : ℚ) ≤ elapsed / growDuration := by
        apply div_nonneg he
        norm_num [growDuration]
      exact le_min this (by norm_num)
    rw [growProgress, max_eq_right h0]
  · have h1 : growProgress 0 = 0 := by
      rw [growProgress]
      norm_num [growDuration]
    rw [growScale, h1]
    norm_num [easeOutBack]
  · intro hd
    have h1 : growProgress elapsed = 1 := by
      rw [growProgress, min_eq_right]
      rw [le_div_iff₀ (by norm_num [growDuration] : (0:ℚ) < growDuration)]
      linarith
    rw [growScale, h1]
    norm_num [easeOutBack, targetScale]

/-- Witness for C5 at `baseScale = 2`, `elapsed = 3000 ≥ growDuration`. -/
theorem grow_scale_spec_witness :
    (0 : ℚ) ≤ 3000
    ∧ (growProgress 3000 = max 0 (min (3000 / growDuration) 1)
        ∧ (growScale 2 3000).1 = 2
        ∧ (growScale 2 3000).2.2 = 2
        ∧ (growScale 2 0).2.1 = 0
        ∧ (growDuration ≤ 3000 → (growScale 2 3000).2.1 = 2))
    ∧ (growScale 2 3000).2.1 = 2 :=
  ⟨by norm_num,
   grow_scale_spec 2 3000 (by norm_num),
   (grow_scale_spec 2 3000 (by norm_num)).2.2.2.2 (by norm_num [growDuration])⟩

/-- The idle sway of `animateSway` (and of the last `growCrops` frame):
`plant.rotation.z = Math.sin(time * swaySpeed + swayOffset) * swayAmount`. -/
noncomputable def rotationZ (swaySpeed swayOffset swayAmount t : ℝ) : ℝ :=
  Real.sin (t * swaySpeed + swayOffset) * swayAmount

/-- C8: once a batch is idle, `rotationZ` as a function of time is
periodic with period `2π / swaySpeed` and bounded within
`[-swayAmount, swayAmount]`. -/
theorem sway_periodic_bounded (s p A t : ℝ) (hs : s ≠ 0) (hA : 0 ≤ A) :
    rotationZ s p A (t + 2 * Real.pi / s) = rotationZ s p A t
    ∧ -A ≤ rotationZ s p A t
    ∧ rotationZ s p A t ≤ A := by
  refine ⟨?_, ?_, ?_⟩
  · unfold rotationZ
    have harg : (t + 2 * Real.pi / s) * s + p = t * s + p + 2 * Real.pi := by
      field_simp
      ring
    rw [harg, Real.sin_add_two_pi]
  · unfold rotationZ
    have h1 := Real.neg_one_le_sin (t * s + p)
    nlinarith
  · unfold rotationZ
    have h2 := Real.sin_le_one (t * s + p)
    nlinarith

/-- Witness for C8 at `swaySpeed = 1`, `swayOffset = 0`,
`swayAmount = 1/10`, `t = 0`. -/
theorem sway_periodic_bounded_witness :
    ((1 : ℝ) ≠ 0 ∧ (0 : ℝ) ≤ 1 / 10)
    ∧ (rotationZ 1 0 (1 / 10) (0 + 2 * Real.pi / 1) = rotationZ 1 0 (1 / 10) 0
        ∧ -(1 / 10) ≤ rotationZ 1 0 (1 / 10) 0
        ∧ rotationZ 1 0 (1 / 10) 0 ≤ 1 / 10) :=
  ⟨⟨by norm_num, by norm_num⟩,
   sway_periodic_bounded 1 0 (1 / 10) 0 (by norm_num) (by norm_num)⟩

/-- A cloud mesh: its `position.x` and its `userData.speed`. -/
structure Cloud where
  posX : ℚ
  speed : ℚ
deriving DecidableEq

/-- The ambient state the render loop mutates each frame: the cloud
meshes, the water shader's `time` uniform, and `isAnimatingRef.current`
(true while `growCrops` is mid-flight). -/
structure AmbientState where
  clouds : List Cloud
  rippleTime : ℚ
  isAnimating : Bool
deriving DecidableEq

/-- One cloud step of the render loop:
`const speed = child.userData.speed || 0.02; child.position.x += speed;
if (child.position.x > 1000) child.position.x = -1000;`. -/
def advanceCloud (c : Cloud) : Cloud :=
  let sp := if c.speed = 0 then 1 / 50 else c.speed
  let x1 := c.posX + sp
  { c with posX := if 1000 < x1 then -1000 else x1 }

/-- One tick of the `animate` render-loop callback of `FarmScene.tsx`:
clouds advance only when `child.name === 'cloud' && !isAnimatingRef.current`;
the water shader's `time` uniform always advances by `0.01`. -/
def renderTick (s : AmbientState) : AmbientState :=
  { s with
    clouds := s.clouds.map (fun c => if s.isAnimating then c else advanceCloud c),
    rippleTime := s.rippleTime + 1 / 100 }

/-- C6 counterexample: on a tick taken while the growth animation is
mid-flight (`isAnimatingRef.current = true`), a cloud with nonzero speed
does not advance — the cloud subsystem is skipped, refuting the claim
that every cloud advances on every tick. -/
theorem tick_cloud_skip_counterexample :
    (renderTick ⟨[⟨0, 1⟩], 0, true⟩).clouds = [⟨0, 1⟩]
    ∧ (renderTick ⟨[⟨0, 1⟩], 0, false⟩).clouds = [⟨1, 1⟩] := by
  constructor
  · rfl
  · norm_num [renderTick, advanceCloud]

/-- C6 amended: on every render tick the water ripple phase always
advances by the fixed increment `0.01`; cloud positions advance by their
per-cloud speed (wrapping past `x = 1000` to `-1000`) only on ticks where
the growth animation is not active — while `growCrops` is mid-flight
(`isAnimating = true`) the cloud animation is skipped. -/
theorem renderTick_amended (s : AmbientState) :
    (renderTick s).rippleTime = s.rippleTime + 1 / 100
    ∧ (renderTick s).clouds
        = s.clouds.map (fun c => if s.isAnimating then c else advanceCloud c)
    ∧ (renderTick { s with isAnimating := true }).clouds = s.clouds
    ∧ (renderTick { s with isAnimating := false }).clouds
        = s.clouds.map advanceCloud := by
  refine ⟨rfl, rfl, ?_, ?_⟩
  · simp [renderTick]
  · simp [renderTick]

/-- C10: the camera-angle toggle is the cyclic permutation
`angled → top → side → angled`; applying it three times from any mode
returns the starting mode. -/
theorem camera_toggle_cycle :
    toggleCameraAngle CameraAngle.angled = CameraAngle.top
    ∧ toggleCameraAngle CameraAngle.top = CameraAngle.side
    ∧ toggleCameraAngle CameraAngle.side = CameraAngle.angled
    ∧ ∀ m : CameraAngle,
        toggleCameraAngle (toggleCameraAngle (toggleCameraAngle m)) = m := by
  refine ⟨rfl, rfl, rfl, ?_⟩
  intro m
  cases m <;> rfl

/-- The soil types the recommendation branches on (`soilType` is a string
in the source; `other` stands for any string outside the listed cases,
for which no soil adjustment applies). -/
inductive SoilType
  | sandy
  | sandyLoam
  | clay
  | clayLoam
  | silty
  | siltLoam
  | peaty
  | loam
  | other
deriving DecidableEq

/-- `FarmData` of `types/farm.ts`:
`{ acres, location, soilType, temperature, rainfall }`. -/
structure FarmData where
  acres : ℚ
  location : String
  soilType : SoilType
  temperature : ℚ
  rainfall : ℚ

/-- A per-crop quadruple of numbers (suitability scores or allocation
percentages), in the fixed order wheat, corn, soybean, cotton. -/
structure CropQuad where
  wheat : ℚ
  corn : ℚ
  soybean : ℚ
  cotton : ℚ

/-- The outcome of the four `Math.random()` draws inside
`randomizePercent`: `variation = Math.floor(Math.random() * 6) - 3`, an
integer in `[-3, 2]`; the theorems below hold for every integer value. -/
structure RandVars where
  wheatVar : ℤ
  cornVar : ℤ
  soybeanVar : ℤ
  cottonVar : ℤ

/-- `Math.max(0, Math.min(100, x))`. -/
def clamp100 (x : ℚ) : ℚ := max 0 (min 100 x)

/-- `Math.round(x)`: round half toward positive infinity,
`⌊x + 1/2⌋`. -/
def jsRound (x : ℚ) : ℤ := ⌊x + 1 / 2⌋

/-- The deterministic adjustment pipeline of `getAIRecommendation` in
`Index.tsx`: starting from suitability `50` and percentage `25` per crop,
apply in order the soil-type, temperature, rainfall and acreage
adjustments, clamp suitability scores to `[0, 100]`, then apply the
low-suitability percentage penalty (`percent = max(0, percent - 20)` when
the clamped suitability is below `20`).  Returns
(suitability scores, adjusted percentages). -/
def adjustStage (fd : FarmData) : CropQuad × CropQuad :=
  let t := fd.temperature
  let r := fd.rainfall
  let a := fd.acres
  let s0 : CropQuad := ⟨50, 50, 50, 50⟩
  let p0 : CropQuad := ⟨25, 25, 25, 25⟩
  -- soil type
  let s1 : CropQuad :=
    match fd.soilType with
    | .sandy | .sandyLoam => ⟨s0.wheat - 15, s0.corn + 10, s0.soybean - 5, s0.cotton + 25⟩
    | .clay | .clayLoam => ⟨s0.wheat + 20, s0.corn - 10, s0.soybean + 15, s0.cotton - 15⟩
    | .silty | .siltLoam => ⟨s0.wheat - 5, s0.corn + 25, s0.soybean + 20, s0.cotton - 15⟩
    | .peaty => ⟨s0.wheat - 10, s0.corn + 5, s0.soybean + 10, s0.cotton - 15⟩
    | .loam => ⟨s0.wheat + 10, s0.corn + 15, s0.soybean + 15, s0.cotton + 5⟩
    | .other => s0
  let p1 : CropQuad :=
    match fd.soilType with
    | .sandy | .sandyLoam => ⟨p0.wheat - 15, p0.corn + 5, p0.soybean - 5, p0.cotton + 15⟩
    | .clay | .clayLoam => ⟨p0.wheat + 15, p0.corn - 10, p0.soybean + 10, p0.cotton - 15⟩
    | .silty | .siltLoam => ⟨p0.wheat - 5, p0.corn + 15, p0.soybean + 10, p0.cotton - 20⟩
    | .peaty => ⟨p0.wheat - 10, p0.corn + 5, p0.soybean + 15, p0.cotton - 10⟩
    | .loam => ⟨p0.wheat + 0, p0.corn + 5, p0.soybean + 5, p0.cotton - 10⟩
    | .other => p0
  -- temperature
  let s2 : CropQuad :=
    ⟨if t < 55 then s1.wheat - (55 - t) * 2
      else if t > 75 then s1.wheat - (t - 75) * 2 else s1.wheat + 15,
     if t < 65 then s1.corn - (65 - t) * 2
      else if t > 85 then s1.corn - (t - 85) * 1.5 else s1.corn + 15,
     if t < 68 then s1.soybean - (68 - t) * 2
      else if t > 86 then s1.soybean - (t - 86) * 1.5 else s1.soybean + 15,
     if t < 75 then s1.cotton - (75 - t) * 2.5
      else if t > 95 then s1.cotton - (t - 95) else s1.cotton + 20⟩
  let p2 : CropQuad :=
    ⟨if t < 55 then p1.wheat - min 15 ((55 - t) * 1.5)
      else if t > 75 then p1.wheat - min 15 ((t - 75) * 1.5) else p1.wheat + 10,
     if t < 65 then p1.corn - min 15 ((65 - t) * 1.5)
      else if t > 85 then p1.corn - min 15 (t - 85) else p1.corn + 10,
     if t < 68 then p1.soybean - min 15 ((68 - t) * 1.5)
      else if t > 86 then p1.soybean - min 15 (t - 86) else p1.soybean + 10,
     if t < 75 then p1.cotton - min 25 ((75 - t) * 2)
      else if t > 95 then p1.cotton - min 10 ((t - 95) * 0.5) else p1.cotton + 15⟩
  -- rainfall
  let s3 : CropQuad :=
    ⟨if r < 12 then s2.wheat - (12 - r) * 3
      else if r > 35 then s2.wheat - (r - 35) * 2 else s2.wheat + 10,
     if r < 20 then s2.corn - (20 - r) * 4
      else if r > 40 then s2.corn - (r - 40) * 1.5 else s2.corn + 15,
     if r < 20 then s2.soybean - (20 - r) * 3
      else if r > 45 then s2.soybean - (r - 45) * 1.5 else s2.soybean + 15,
     if r < 15 then s2.cotton - (15 - r) * 3
      else if r > 35 then s2.cotton - (r - 35) * 2 else s2.cotton + 15⟩
  let p3 : CropQuad :=
    ⟨if r < 12 then p2.wheat - min 15 ((12 - r) * 2)
      else if r > 35 then p2.wheat - min 15 ((r - 35) * 1.5) else p2.wheat + 5,
     if r < 20 then p2.corn - min 25 ((20 - r) * 2.5)
      else if r > 40 then p2.corn - min 15 (r - 40) else p2.corn + 10,
     if r < 20 then p2.soybean - min 20 ((20 - r) * 2)
      else if r > 45 then p2.soybean - min 15 (r - 45) else p2.soybean + 10,
     if r < 15 then p2.cotton - min 20 ((15 - r) * 2)
      else if r > 35 then p2.cotton - min 15 ((r - 35) * 1.5) else p2.cotton + 10⟩
  -- land size
  let s4 : CropQuad :=
    if a < 5 then ⟨s3.wheat - 5, s3.corn + 5, s3.soybean + 10, s3.cotton⟩
    else if a < 20 then ⟨s3.wheat, s3.corn + 5, s3.soybean + 5, s3.cotton⟩
    else if a < 50 then s3
    else if a < 100 then ⟨s3.wheat + 5, s3.corn, s3.soybean, s3.cotton⟩
    else if a < 300 then ⟨s3.wheat + 10, s3.corn + 5, s3.soybean, s3.cotton⟩
    else ⟨s3.wheat + 10, s3.corn + 10, s3.soybean, s3.cotton⟩
  let p4 : CropQuad :=
    if a < 5 then ⟨p3.wheat - 5, p3.corn + 5, p3.soybean + 10, p3.cotton - 10⟩
    else if a < 20 then ⟨p3.wheat - 5, p3.corn + 5, p3.soybean + 5, p3.cotton - 5⟩
    else if a < 50 then p3
    else if a < 100 then ⟨p3.wheat + 5, p3.corn + 0, p3.soybean + 0, p3.cotton - 5⟩
    else if a < 300 then ⟨p3.wheat + 10, p3.corn + 5, p3.soybean - 5, p3.cotton - 10⟩
    else ⟨p3.wheat + 5, p3.corn + 10, p3.soybean - 5, p3.cotton - 10⟩
  -- clamp suitability to [0, 100]
  let s5 : CropQuad :=
    ⟨clamp100 s4.wheat, clamp100 s4.corn, clamp100 s4.soybean, clamp100 s4.cotton⟩
  -- very low suitability reduces the allocation dramatically
  let p5 : CropQuad :=
    ⟨if s5.wheat < 20 then max 0 (p4.wheat - 20) else p4.wheat,
     if s5.corn < 20 then max 0 (p4.corn - 20) else p4.corn,
     if s5.soybean < 20 then max 0 (p4.soybean - 20) else p4.soybean,
     if s5.cotton < 20 then max 0 (p4.cotton - 20) else p4.cotton⟩
  (s5, p5)

/-- `randomizePercent` applied to each crop:
`Math.max(0, Math.min(100, basePercent + variation))`. -/
def randomizeStage (p : CropQuad) (rv : RandVars) : CropQuad :=
  ⟨clamp100 (p.wheat + (rv.wheatVar : ℚ)),
   clamp100 (p.corn + (rv.cornVar : ℚ)),
   clamp100 (p.soybean + (rv.soybeanVar : ℚ)),
   clamp100 (p.cotton + (rv.cottonVar : ℚ))⟩

/-- The normalization tail of `getAIRecommendation`: if the total is
`≤ 0`, reset to the balanced `25/25/25/25`; otherwise round each
percentage times `100 / total`; then add the rounding error
`100 - (sum of rounded values)` to the most suitable crop (the first
maximum of the stable descending sort of the suitability list, which is
in wheat, corn, soybean, cotton order). -/
def finalizePercents (s p : CropQuad) : CropQuad :=
  let total := p.wheat + p.corn + p.soybean + p.cotton
  let q : CropQuad :=
    if total ≤ 0 then ⟨25, 25, 25, 25⟩
    else
      ⟨(jsRound (p.wheat * (100 / total)) : ℚ),
       (jsRound (p.corn * (100 / total)) : ℚ),
       (jsRound (p.soybean * (100 / total)) : ℚ),
       (jsRound (p.cotton * (100 / total)) : ℚ)⟩
  let err := 100 - (q.wheat + q.corn + q.soybean + q.cotton)
  if s.wheat ≥ s.corn ∧ s.wheat ≥ s.soybean ∧ s.wheat ≥ s.cotton then
    ⟨q.wheat + err, q.corn, q.soybean, q.cotton⟩
  else if s.corn ≥ s.soybean ∧ s.corn ≥ s.cotton then
    ⟨q.wheat, q.corn + err, q.soybean, q.cotton⟩
  else if s.soybean ≥ s.cotton then
    ⟨q.wheat, q.corn, q.soybean + err, q.cotton⟩
  else
    ⟨q.wheat, q.corn, q.soybean, q.cotton + err⟩

/-- One entry of the list `getAIRecommendation` returns.  The
presentation-only economics fields (`yieldPerAcre`, `pricePerUnit`,
`costPerAcre`, `profit` — derived from market constants and further
`Math.random()` draws, unused by the scene core) are not modelled. -/
structure RecommendedAllocation where
  crop : CropType
  percentage : ℚ
  acres : ℚ
  suitabilityScore : ℚ

/-- `getAIRecommendation` of `Index.tsx`: the adjustment pipeline, the
per-crop randomization, normalization with rounding-error redistribution,
and the returned four-entry list in wheat, corn, soybean, cotton order
with `acres = (percent / 100) * acres`. -/
def getAIRecommendation (fd : FarmData) (rv : RandVars) :
    List RecommendedAllocation :=
  let sp := adjustStage fd
  let suits := sp.1
  let pr := randomizeStage sp.2 rv
  let f := finalizePercents suits pr
  [⟨.wheat, f.wheat, f.wheat / 100 * fd.acres, suits.wheat⟩,
   ⟨.corn, f.corn, f.corn / 100 * fd.acres, suits.corn⟩,
   ⟨.soybean, f.soybean, f.soybean / 100 * fd.acres, suits.soybean⟩,
   ⟨.cotton, f.cotton, f.cotton / 100 * fd.acres, suits.cotton⟩]

/-- Helper: whatever the suitability scores and incoming percentages, the
finalized percentages sum to exactly 100: in the reset branch the four
25s already sum to 100 and the rounding error is 0; otherwise the error
term is defined as 100 minus the rounded sum and is added back to exactly
one crop. -/
theorem finalizePercents_sum (s p : CropQuad) :
    (finalizePercents s p).wheat + (finalizePercents s p).corn
      + (finalizePercents s p).soybean + (finalizePercents s p).cotton = 100 := by
  unfold finalizePercents
  split_ifs <;> dsimp only <;> ring

/-- C9: for every farm input and every outcome of the internal
randomization, `getAIRecommendation` returns exactly four allocations, in
the fixed order wheat, corn, soybean, cotton, whose percentage fields sum
to exactly 100. -/
theorem recommendation_four_sum_100 (fd : FarmData) (rv : RandVars) :
    (getAIRecommendation fd rv).length = 4
    ∧ (getAIRecommendation fd rv).map RecommendedAllocation.crop
        = [CropType.wheat, CropType.corn, CropType.soybean, CropType.cotton]
    ∧ ((getAIRecommendation fd rv).map RecommendedAllocation.percentage).sum
        = 100 := by
  refine ⟨rfl, rfl, ?_⟩
  have h := finalizePercents_sum (adjustStage fd).1
    (randomizeStage (adjustStage fd).2 rv)
  simp only [getAIRecommendation, List.map_cons, List.map_nil, List.sum_cons,
    List.sum_nil]
  linarith

end FarmViz
